import Mathlib

/-!
Shallow embedding of the ucxx endpoint and stream/tag transfer layer
(`cpp/include/ucxx/endpoint.h`, `cpp/include/ucxx/transfer_stream.h`,
`cpp/include/ucxx/request_tag.h`), together with theorems settling the
frozen claims about it.

Machine pointers are modelled as `Nat` identities (with `Option` for
possibly-null handles), the UCS status space as an inductive covering the
statuses the code distinguishes, and side effects (logging, scheduling a
cancellation, invoking a close callback, calling into the UCP transport)
as explicit action traces.
-/

namespace Ucxx

/-- UCS status codes, keeping the constructors the endpoint code
distinguishes (`UCS_OK`, `UCS_INPROGRESS`, `UCS_ERR_CONNECTION_RESET`,
`UCS_ERR_ENDPOINT_TIMEOUT`) and folding every other error code into
`otherError`. -/
inductive UcsStatus where
  | ok
  | inProgress
  | connectionReset
  | endpointTimeout
  | otherError (code : Nat)
deriving DecidableEq, Repr

/-- Request lifecycle states of the spec state machine
(`Created → \x7bDelayed | Submitted\x7d → Completed | Errored | Cancelled`). -/
inductive RequestState where
  | created
  | delayed
  | submitted
  | completed
  | errored
  | cancelled
deriving DecidableEq, Repr

/-- A state is terminal when it is `completed`, `errored` or `cancelled`. -/
def RequestState.isTerminal : RequestState → Bool
  | .completed => true
  | .errored => true
  | .cancelled => true
  | _ => false

/-- One entry of the inflight request registry (`inflight_request_map_t`):
the key `reqId` models the `UCXXRequest*` key, `alive` models whether the
stored `std::weak_ptr<UCXXRequest>` still locks (the request object has not
been destroyed), and `state` models the request's lifecycle state. -/
structure InflightEntry where
  reqId : Nat
  alive : Bool
  state : RequestState
deriving DecidableEq, Repr

/-- Modelled from the spec: the body of `UCXXWorker::scheduleRequestCancel`
is not under `src/` (only its call site in `_err_cb` is). Spec section 4.3:
cancellation iterates all weak entries still alive and, for each live
Request not yet terminal, force-transitions it to `Cancelled`; entries
whose Request has already been destroyed are silently skipped. -/
def cancelAll (reg : List InflightEntry) : List InflightEntry :=
  reg.map fun e =>
    if e.alive && !e.state.isTerminal then { e with state := RequestState.cancelled } else e

/-- Severity of a log emission (`ucxx_debug` versus `ucxx_error`). -/
inductive LogLevel where
  | debug
  | error
deriving DecidableEq, Repr

/-- Observable side effects of the endpoint error callback. -/
inductive EpAction where
  | scheduleRequestCancel
  | invokeCloseCallback (arg : Option Nat)
  | log (level : LogLevel) (status : UcsStatus)
deriving DecidableEq, Repr

/-- The `error_callback_data_t` struct: last observed status, the shared
inflight registry, and the optional close callback with its argument
(callback functions are modelled by `Nat` tokens). -/
structure ErrorCallbackData where
  status : UcsStatus
  inflightRequests : List InflightEntry
  closeCallback : Option Nat
  closeCallbackArg : Option Nat
deriving DecidableEq, Repr

/-- The endpoint error callback `_err_cb`: records the status, asks the
worker to cancel the inflight requests, invokes and clears the close
callback if one is set, and logs the error (at debug severity for
connection reset and endpoint timeout, at error severity otherwise).
Returns the updated callback data together with the trace of actions. -/
def errCb (data : ErrorCallbackData) (status : UcsStatus) :
    ErrorCallbackData × List EpAction :=
  let data1 : ErrorCallbackData :=
    { data with
      status := status
      inflightRequests := cancelAll data.inflightRequests }
  let (data2, closeActs) :=
    match data1.closeCallback with
    | some _ =>
        ({ data1 with closeCallback := none, closeCallbackArg := none },
         [EpAction.invokeCloseCallback data1.closeCallbackArg])
    | none => (data1, ([] : List EpAction))
  let lvl :=
    if status = UcsStatus.connectionReset ∨ status = UcsStatus.endpointTimeout then
      LogLevel.debug
    else
      LogLevel.error
  (data2, EpAction.scheduleRequestCancel :: closeActs ++ [EpAction.log lvl status])

/-- Folding the error callback over a list of statuses: the callback fired
repeatedly on the same callback data, collecting the whole action trace. -/
def errCbSeq (data : ErrorCallbackData) (statuses : List UcsStatus) :
    ErrorCallbackData × List EpAction :=
  match statuses with
  | [] => (data, [])
  | s :: rest =>
      let r1 := errCb data s
      let r2 := errCbSeq r1.1 rest
      (r2.1, r1.2 ++ r2.2)

/-- Number of close-callback invocations in an action trace. -/
def countCloseInvocations (tr : List EpAction) : Nat :=
  tr.countP fun a =>
    match a with
    | EpAction.invokeCloseCallback _ => true
    | _ => false

/-- The setter `UCXXEndpoint::setCloseCallback`: stores the close callback
and its argument into the error callback data. -/
def setCloseCallback (data : ErrorCallbackData) (cb arg : Option Nat) :
    ErrorCallbackData :=
  { data with closeCallback := cb, closeCallbackArg := arg }

/-- Concrete callback data used to witness the close-callback claim. -/
def dataCloseOnce : ErrorCallbackData :=
  { status := UcsStatus.ok, inflightRequests := [],
    closeCallback := some 3, closeCallbackArg := some 4 }

/-- Exceptions thrown by the endpoint code: `UCXXError` and its subclass
`UCXXConnectionResetError`, each carrying a message. -/
inductive UcxxErr where
  | ucxxError (msg : String)
  | connectionResetError (msg : String)
deriving DecidableEq, Repr

/-- Model of `ucs_status_string`: a human-readable rendering of a status. -/
def ucsStatusString : UcsStatus → String
  | .ok => "Success"
  | .inProgress => "Operation in progress"
  | .connectionReset => "Connection reset by remote peer"
  | .endpointTimeout => "Endpoint timeout"
  | .otherError _ => "Error"

/-- The `UCXXEndpoint` object: the (possibly null) `ucp_ep_h` handle, the
error-handling mode chosen at construction, and the error callback data,
which holds the shared inflight registry. -/
structure Endpoint where
  handle : Option Nat
  endpointErrorHandling : Bool
  callbackData : ErrorCallbackData
deriving DecidableEq, Repr

/-- `UCXXEndpoint::isAlive`: always true when endpoint error handling is
disabled, otherwise true exactly when the recorded status is `UCS_OK`. -/
def Endpoint.isAlive (ep : Endpoint) : Bool :=
  if !ep.endpointErrorHandling then true
  else ep.callbackData.status == UcsStatus.ok

/-- `UCXXEndpoint::raiseOnError`: returns normally when the recorded status
is `UCS_OK` or error handling is disabled; otherwise throws
`UCXXConnectionResetError` for a connection reset and `UCXXError` for any
other error status. -/
def Endpoint.raiseOnError (ep : Endpoint) : Except UcxxErr Unit :=
  let status := ep.callbackData.status
  if status = UcsStatus.ok ∨ ep.endpointErrorHandling = false then Except.ok ()
  else if status = UcsStatus.connectionReset then
    Except.error (UcxxErr.connectionResetError ("Endpoint error: " ++ ucsStatusString status))
  else
    Except.error (UcxxErr.ucxxError ("Endpoint error: " ++ ucsStatusString status))

/-- Concrete endpoint with error handling disabled and an error status
recorded, witnessing the disabled-error-handling claim. -/
def epNoErrHandling : Endpoint :=
  { handle := some 1, endpointErrorHandling := false,
    callbackData := { status := UcsStatus.connectionReset, inflightRequests := [],
                      closeCallback := none, closeCallbackArg := none } }

/-- The UCP non-blocking operation a transfer submits. -/
inductive UcpOp where
  | streamSendNbx
  | streamRecvNbx
  | tagSendNbx
  | tagRecvNbx
deriving DecidableEq, Repr

/-- Fields of `ucp_request_param_t::op_attr_mask` the transfers set. -/
inductive OpAttrField where
  | fieldCallback
  | fieldDatatype
  | fieldUserData
  | fieldFlags
deriving DecidableEq, Repr

/-- Flags the transfers place in `ucp_request_param_t::flags`. -/
inductive UcpFlag where
  | streamRecvWaitall
deriving DecidableEq, Repr

/-- One call into the UCP transport: the operation, its target endpoint or
worker handle, the buffer, length and optional tag, the user data (the
request identity) and the request parameters actually set. -/
structure UcpCall where
  op : UcpOp
  epTarget : Option Nat
  workerTarget : Option Nat
  buffer : Nat
  length : Nat
  tag : Option Nat
  userData : Nat
  opAttrMask : List OpAttrField
  flags : List UcpFlag
deriving DecidableEq, Repr

/-- `stream_request` (transfer_stream.h): a send calls
`ucp_stream_send_nbx` with callback, datatype and user data set; a receive
additionally sets the flags field with `UCP_STREAM_RECV_FLAG_WAITALL` and
calls `ucp_stream_recv_nbx`. -/
def stream_request (ep : Option Nat) (send : Bool) (buffer length reqId : Nat) : UcpCall :=
  let baseMask := [OpAttrField.fieldCallback, OpAttrField.fieldDatatype,
                   OpAttrField.fieldUserData]
  if send then
    { op := UcpOp.streamSendNbx, epTarget := ep, workerTarget := none,
      buffer := buffer, length := length, tag := none, userData := reqId,
      opAttrMask := baseMask, flags := [] }
  else
    { op := UcpOp.streamRecvNbx, epTarget := ep, workerTarget := none,
      buffer := buffer, length := length, tag := none, userData := reqId,
      opAttrMask := baseMask ++ [OpAttrField.fieldFlags],
      flags := [UcpFlag.streamRecvWaitall] }

/-- `UCXXRequestTag::request` (request_tag.h): a tag send calls
`ucp_tag_send_nbx` on the endpoint, a tag receive calls
`ucp_tag_recv_nbx` on the worker; both set only callback, datatype and
user data — no flags field. -/
def tag_request (worker ep : Option Nat) (send : Bool) (buffer length tag reqId : Nat) :
    UcpCall :=
  let baseMask := [OpAttrField.fieldCallback, OpAttrField.fieldDatatype,
                   OpAttrField.fieldUserData]
  if send then
    { op := UcpOp.tagSendNbx, epTarget := ep, workerTarget := none,
      buffer := buffer, length := length, tag := some tag, userData := reqId,
      opAttrMask := baseMask, flags := [] }
  else
    { op := UcpOp.tagRecvNbx, epTarget := none, workerTarget := worker,
      buffer := buffer, length := length, tag := some tag, userData := reqId,
      opAttrMask := baseMask, flags := [] }

/-- A `delayed_notification_request_t`: the deferred submission descriptor
(worker handle, target endpoint, direction, buffer, length, optional tag,
and the request to populate). -/
structure DelayedNotificationRequest where
  workerHandle : Option Nat
  ep : Option Nat
  send : Bool
  buffer : Nat
  length : Nat
  tag : Option Nat
  requestId : Nat
deriving DecidableEq, Repr

/-- The `UCXXWorker` as the transfer layer sees it: the (possibly null)
`ucp_worker_h` handle, the queue of registered delayed notification
requests, and the trace of calls made into the UCP transport. -/
structure Worker where
  handle : Option Nat
  delayedQueue : List DelayedNotificationRequest
  transportCalls : List UcpCall
deriving DecidableEq, Repr

/-- `UCXXWorker::registerDelayedNotificationRequest`: appends the entry to
the delayed notification queue. -/
def Worker.registerDelayedNotificationRequest (w : Worker)
    (d : DelayedNotificationRequest) : Worker :=
  { w with delayedQueue := w.delayedQueue ++ [d] }

/-- A `ucxx_request_t` as created by the transfer layer, plus the abstract
lifecycle state the spec state machine assigns to it. -/
structure UcxxRequestT where
  id : Nat
  state : RequestState
  callback : Option Nat
  callbackData : Option Nat
deriving DecidableEq, Repr

/-- `stream_msg` (transfer_stream.h): creates the request with null
callback fields, fills in a delayed notification descriptor and registers
it on the worker — unconditionally, for every caller; the actual transport
submission is deferred to the worker progress thread. The request is
returned in the `Delayed` state: it sits in the queue, not at the
transport. -/
def stream_msg (w : Worker) (ep : Option Nat) (send : Bool) (buffer length freshId : Nat) :
    Worker × UcxxRequestT :=
  let request : UcxxRequestT :=
    { id := freshId, state := RequestState.delayed, callback := none, callbackData := none }
  let d : DelayedNotificationRequest :=
    { workerHandle := w.handle, ep := ep, send := send, buffer := buffer,
      length := length, tag := none, requestId := freshId }
  (w.registerDelayedNotificationRequest d, request)

/-- `populate_delayed_notification_stream_request` (transfer_stream.h):
consumes one delayed entry by calling `stream_request` with exactly the
parameters recorded in the entry — this is the point where the operation
reaches the transport. -/
def populate_delayed_notification_stream_request (w : Worker)
    (d : DelayedNotificationRequest) : Worker :=
  { w with transportCalls :=
      w.transportCalls ++ [stream_request d.ep d.send d.buffer d.length d.requestId] }

/-- Modelled from the spec: the body of `tag_msg` (transfer_tag.h) is not
under src/ — only its call sites in `UCXXEndpoint::tag_send`/`tag_recv`
and the tag populate path `UCXXRequestTag::populateNotificationRequest`
are. Spec section 3: a DelayedNotificationQueue entry (direction, buffer,
length, target connection, request) is created and registered; the
ProgressEngine consumes it later. Mirrors `stream_msg` with a tag. -/
def tag_msg (w : Worker) (ep : Option Nat) (send : Bool) (buffer length tag freshId : Nat) :
    Worker × UcxxRequestT :=
  let request : UcxxRequestT :=
    { id := freshId, state := RequestState.delayed, callback := none, callbackData := none }
  let d : DelayedNotificationRequest :=
    { workerHandle := w.handle, ep := ep, send := send, buffer := buffer,
      length := length, tag := some tag, requestId := freshId }
  (w.registerDelayedNotificationRequest d, request)

/-- A `shared_ptr<UCXXRequest>` as returned to the caller: the request
identity, its state, and the number of strong owners of the object. -/
structure UCXXRequest where
  id : Nat
  state : RequestState
  strongCount : Nat
deriving DecidableEq, Repr

/-- `UCXXEndpoint::createRequest`: wraps the `ucxx_request_t` into a
`UCXXRequest` and inserts a weak reference to it into the endpoint's
inflight registry. The returned handle has exactly one strong owner (the
caller); the registry entry is weak and adds none. -/
def Endpoint.createRequest (ep : Endpoint) (request : UcxxRequestT) :
    Endpoint × UCXXRequest :=
  let req : UCXXRequest := { id := request.id, state := request.state, strongCount := 1 }
  let entry : InflightEntry := { reqId := request.id, alive := true, state := request.state }
  ({ ep with callbackData :=
      { ep.callbackData with
        inflightRequests := ep.callbackData.inflightRequests ++ [entry] } },
   req)

/-- `UCXXEndpoint::stream_send`: issues `stream_msg` in the send direction
on the endpoint handle and registers the resulting request. No check of
the endpoint error status happens on this path. -/
def Endpoint.stream_send (ep : Endpoint) (w : Worker) (buffer length freshId : Nat) :
    Endpoint × Worker × UCXXRequest :=
  let r := stream_msg w ep.handle true buffer length freshId
  let c := ep.createRequest r.2
  (c.1, r.1, c.2)

/-- `UCXXEndpoint::stream_recv`: as `stream_send`, receive direction. -/
def Endpoint.stream_recv (ep : Endpoint) (w : Worker) (buffer length freshId : Nat) :
    Endpoint × Worker × UCXXRequest :=
  let r := stream_msg w ep.handle false buffer length freshId
  let c := ep.createRequest r.2
  (c.1, r.1, c.2)

/-- `UCXXEndpoint::tag_send`: issues `tag_msg` in the send direction and
registers the resulting request; no status check on this path either. -/
def Endpoint.tag_send (ep : Endpoint) (w : Worker) (buffer length tag freshId : Nat) :
    Endpoint × Worker × UCXXRequest :=
  let r := tag_msg w ep.handle true buffer length tag freshId
  let c := ep.createRequest r.2
  (c.1, r.1, c.2)

/-- `UCXXEndpoint::tag_recv`: as `tag_send`, receive direction. -/
def Endpoint.tag_recv (ep : Endpoint) (w : Worker) (buffer length tag freshId : Nat) :
    Endpoint × Worker × UCXXRequest :=
  let r := tag_msg w ep.handle false buffer length tag freshId
  let c := ep.createRequest r.2
  (c.1, r.1, c.2)

/-- An entry is discoverable in a registry when some entry carries its
request identity. -/
def discoverable (reg : List InflightEntry) (rid : Nat) : Bool :=
  reg.any fun e => e.reqId == rid

/-- Modelled from the spec: removal of a registry entry happens at the
Request terminal transition inside `UCXXRequest`, which is not under
src/. Spec section 3 (InflightRegistry): entries are inserted at Request
creation and removed at Request terminal transition or destruction. -/
def removeOnTerminal (reg : List InflightEntry) (rid : Nat) : List InflightEntry :=
  reg.filter fun e => !(e.reqId == rid)

/-- Worker in its initial state, used as the concrete progress-owning
thread context for the delayed-submission counterexample. -/
def wOwn : Worker := { handle := some 2, delayedQueue := [], transportCalls := [] }

/-- Endpoint with error handling enabled whose observed status is a
connection reset: the configuration the fail-fast claim is about. -/
def epErrored : Endpoint :=
  { handle := some 1, endpointErrorHandling := true,
    callbackData := { status := UcsStatus.connectionReset, inflightRequests := [],
                      closeCallback := none, closeCallbackArg := none } }

/-- Worker in its initial state, paired with `epErrored`. -/
def wErr : Worker := { handle := some 2, delayedQueue := [], transportCalls := [] }

/-- A `UCXXAddress` as the endpoint creators see it: the (possibly null)
address handle and its length. -/
structure AddressObj where
  addrHandle : Option Nat
  length : Nat
deriving DecidableEq, Repr

/-- Calls made into the UCP transport during endpoint creation. -/
inductive TransportAction where
  | epCreate (workerHandle : Nat)
deriving DecidableEq, Repr

/-- The `err_mode` an endpoint constructor places into the parameters. -/
inductive ErrHandlingMode where
  | peer
  | modeNone
deriving DecidableEq, Repr

/-- The endpoint parameters the constructor fills in before calling
`ucp_ep_create`. -/
structure EpParams where
  errMode : ErrHandlingMode
  errHandlerSet : Bool
deriving DecidableEq, Repr

/-- A worker reference is invalid when it is null or its transport handle
is null — the condition every endpoint creator rejects. -/
def workerInvalid : Option Worker → Bool
  | none => true
  | some w => w.handle.isNone

/-- An address reference is invalid when it is null, its handle is null,
or its length is zero. -/
def addressInvalid : Option AddressObj → Bool
  | none => true
  | some a => a.addrHandle.isNone || a.length == 0

/-- The private `UCXXEndpoint` constructor: rejects a null worker or a
worker with a null transport handle before any transport interaction,
then initialises the callback data (status `UCS_OK`, empty registry),
sets the error handling mode and handler, and calls `ucp_ep_create`.
Returns the outcome together with the transport actions performed. -/
def endpointCtor (worker : Option Worker) (endpointErrorHandling : Bool)
    (newEpHandle : Nat) :
    Except UcxxErr (Endpoint × EpParams) × List TransportAction :=
  match worker with
  | none => (Except.error (UcxxErr.ucxxError "Worker not initialized"), [])
  | some w =>
      match w.handle with
      | none => (Except.error (UcxxErr.ucxxError "Worker not initialized"), [])
      | some wh =>
          let params : EpParams :=
            { errMode :=
                if endpointErrorHandling then ErrHandlingMode.peer
                else ErrHandlingMode.modeNone,
              errHandlerSet := true }
          (Except.ok
            ({ handle := some newEpHandle,
               endpointErrorHandling := endpointErrorHandling,
               callbackData := { status := UcsStatus.ok, inflightRequests := [],
                                 closeCallback := none, closeCallbackArg := none } },
             params),
           [TransportAction.epCreate wh])

/-- `createEndpointFromHostname`: checks the worker, then hostname
resolution (`gethostbyname`, modelled by an optional resolved host),
then delegates to the constructor. -/
def createEndpointFromHostname (worker : Option Worker) (resolvedHost : Option Nat)
    (port : Nat) (endpointErrorHandling : Bool) (newEpHandle : Nat) :
    Except UcxxErr (Endpoint × EpParams) × List TransportAction :=
  match worker with
  | none => (Except.error (UcxxErr.ucxxError "Worker not initialized"), [])
  | some w =>
      match w.handle with
      | none => (Except.error (UcxxErr.ucxxError "Worker not initialized"), [])
      | some _ =>
          match resolvedHost with
          | none => (Except.error (UcxxErr.ucxxError "Invalid IP address or hostname"), [])
          | some _ => endpointCtor worker endpointErrorHandling newEpHandle

/-- `createEndpointFromWorkerAddress`: checks the worker, then the
address, then delegates to the constructor. -/
def createEndpointFromWorkerAddress (worker : Option Worker)
    (address : Option AddressObj) (endpointErrorHandling : Bool) (newEpHandle : Nat) :
    Except UcxxErr (Endpoint × EpParams) × List TransportAction :=
  match worker with
  | none => (Except.error (UcxxErr.ucxxError "Worker not initialized"), [])
  | some w =>
      match w.handle with
      | none => (Except.error (UcxxErr.ucxxError "Worker not initialized"), [])
      | some _ =>
          match address with
          | none => (Except.error (UcxxErr.ucxxError "Address not initialized"), [])
          | some a =>
              if a.addrHandle.isNone || a.length == 0 then
                (Except.error (UcxxErr.ucxxError "Address not initialized"), [])
              else endpointCtor worker endpointErrorHandling newEpHandle

/-- Valid worker used by the endpoint-creation witness. -/
def wValid : Worker := { handle := some 5, delayedQueue := [], transportCalls := [] }

/-- Mode passed to `ucp_ep_close_nb`. -/
inductive CloseMode where
  | force
  | flush
deriving DecidableEq, Repr

/-- Observable steps of the endpoint destructor. -/
inductive DtorAction where
  | closeIssued (mode : CloseMode)
  | workerProgress
  | closeRequestFreed
  | logCloseError (status : UcsStatus)
deriving DecidableEq, Repr

/-- Number of registry entries not yet in a terminal state. -/
def countNonTerminal (reg : List InflightEntry) : Nat :=
  reg.countP fun e => !e.state.isTerminal

/-- Modelled from the spec: the effect of one `worker->progress()` step on
a force-mode close belongs to the external transport (spec section 1
treats the transport as an external collaborator). Each step lets the
transport force-cancel one more outstanding request: the first
non-terminal entry transitions to `Cancelled`. -/
def cancelFirstNonTerminal : List InflightEntry → List InflightEntry
  | [] => []
  | e :: rest =>
      if e.state.isTerminal then e :: cancelFirstNonTerminal rest
      else { e with state := RequestState.cancelled } :: rest

/-- Modelled from the spec: `ucp_request_check_status` of the close
request belongs to the external transport. Spec section 3 (Endpoint
invariants): closing releases the transport handle only after all of its
requests have reached a terminal state or been force-cancelled, so the
close request stays `UCS_INPROGRESS` exactly while some request of the
endpoint is non-terminal. -/
def ucpRequestCheckStatus (pending : List InflightEntry) : UcsStatus :=
  if countNonTerminal pending = 0 then UcsStatus.ok else UcsStatus.inProgress

/-- Progress loop of the destructor, driven by the number of remaining
non-terminal requests (each step resolves exactly one, so this fuel makes
the loop stop precisely when `ucpRequestCheckStatus` stops reporting
`UCS_INPROGRESS`). -/
def driveCloseAux : Nat → List InflightEntry → List DtorAction × List InflightEntry
  | 0, pending => ([], pending)
  | Nat.succ n, pending =>
      let r := driveCloseAux n (cancelFirstNonTerminal pending)
      (DtorAction.workerProgress :: r.1, r.2)

/-- The destructor's `while (ucp_request_check_status(status) ==
UCS_INPROGRESS) worker->progress();` loop. -/
def driveClose (pending : List InflightEntry) : List DtorAction × List InflightEntry :=
  driveCloseAux (countNonTerminal pending) pending

/-- `UCXXEndpoint::~UCXXEndpoint`: returns immediately on a null handle;
otherwise issues `ucp_ep_close_nb` in force mode (`close_mode` is
initialised to `UCP_EP_CLOSE_MODE_FORCE` and re-assigned the same value
when error handling is enabled with a non-ok status, hence always force).
If the transport answers with an in-progress close request
(`immediateStatus = none`), the destructor drives worker progress until
the close completes, then frees the close request; an immediate non-ok
status is logged as an error. -/
def endpointDtor (ep : Endpoint) (immediateStatus : Option UcsStatus) :
    List DtorAction :=
  match ep.handle with
  | none => []
  | some _ =>
      let mode := CloseMode.force
      match immediateStatus with
      | some s =>
          if s = UcsStatus.ok then [DtorAction.closeIssued mode]
          else [DtorAction.closeIssued mode, DtorAction.logCloseError s]
      | none =>
          let r := driveClose ep.callbackData.inflightRequests
          DtorAction.closeIssued mode :: r.1 ++ [DtorAction.closeRequestFreed]

/-- Endpoint with outstanding requests used by the destructor witness. -/
def epWithInflight : Endpoint :=
  { handle := some 1, endpointErrorHandling := true,
    callbackData :=
      { status := UcsStatus.connectionReset,
        inflightRequests :=
          [{ reqId := 0, alive := true, state := RequestState.submitted },
           { reqId := 1, alive := true, state := RequestState.completed },
           { reqId := 2, alive := true, state := RequestState.delayed }],
        closeCallback := none, closeCallbackArg := none } }

theorem cancelAll_inflight (data : ErrorCallbackData) (status : UcsStatus) :
    (errCb data status).1.inflightRequests = cancelAll data.inflightRequests := by
  unfold errCb
  cases data.closeCallback <;> simp

theorem cancelAll_all_terminal (reg : List InflightEntry) :
    ((cancelAll reg).all fun e => !e.alive || e.state.isTerminal) = true := by
  induction reg with
  | nil => rfl
  | cons e rest ih =>
      cases ha : e.alive <;> cases ht : e.state.isTerminal <;>
        simp_all [cancelAll, RequestState.isTerminal]

theorem cancelAll_preserves_terminal (reg : List InflightEntry) :
    (((cancelAll reg).zip reg).all
        fun p => !p.2.state.isTerminal || (p.1.state == p.2.state)) = true := by
  induction reg with
  | nil => rfl
  | cons e rest ih =>
      cases ha : e.alive <;> cases ht : e.state.isTerminal <;>
        simp_all [cancelAll, RequestState.isTerminal]

theorem errCb_count_schedule (data : ErrorCallbackData) (status : UcsStatus) :
    (errCb data status).2.count EpAction.scheduleRequestCancel = 1 := by
  unfold errCb
  cases data.closeCallback <;>
    by_cases hc : status = UcsStatus.connectionReset ∨ status = UcsStatus.endpointTimeout <;>
      simp [hc, List.count_cons, List.count_append]

/-- C2: when the transport invokes the endpoint error callback `_err_cb`,
cancellation of the inflight-request registry is invoked exactly once and
synchronously within that callback (the trace holds exactly one
`scheduleRequestCancel` action), and afterwards every registry entry whose
request was still alive is terminal — either force-cancelled or left in
the prior terminal state it had already reached. -/
theorem errCb_schedules_cancel_once_all_terminal
    (data : ErrorCallbackData) (status : UcsStatus) :
    ((errCb data status).2.count EpAction.scheduleRequestCancel = 1) ∧
    (((errCb data status).1.inflightRequests.all
        fun e => !e.alive || e.state.isTerminal) = true) ∧
    ((((errCb data status).1.inflightRequests.zip data.inflightRequests).all
        fun p => !p.2.state.isTerminal || (p.1.state == p.2.state)) = true) := by
  refine ⟨errCb_count_schedule data status, ?_, ?_⟩
  · rw [cancelAll_inflight]
    exact cancelAll_all_terminal data.inflightRequests
  · rw [cancelAll_inflight]
    exact cancelAll_preserves_terminal data.inflightRequests

/-- C7: every invocation of the endpoint error callback logs the
connection error at debug severity exactly when the status is
`UCS_ERR_CONNECTION_RESET` or `UCS_ERR_ENDPOINT_TIMEOUT`, and at error
severity for every other status. -/
theorem errCb_log_severity (data : ErrorCallbackData) (status : UcsStatus) :
    ((errCb data status).2.count (EpAction.log LogLevel.debug status) =
      if status = UcsStatus.connectionReset ∨ status = UcsStatus.endpointTimeout
      then 1 else 0) ∧
    ((errCb data status).2.count (EpAction.log LogLevel.error status) =
      if status = UcsStatus.connectionReset ∨ status = UcsStatus.endpointTimeout
      then 0 else 1) := by
  unfold errCb
  cases data.closeCallback <;>
    by_cases hc : status = UcsStatus.connectionReset ∨ status = UcsStatus.endpointTimeout <;>
      simp [hc, List.count_cons, List.count_append]

theorem errCb_none_close (data : ErrorCallbackData) (s : UcsStatus)
    (h : data.closeCallback = none) :
    (errCb data s).1.closeCallback = none ∧
      countCloseInvocations (errCb data s).2 = 0 := by
  unfold errCb
  by_cases hc : s = UcsStatus.connectionReset ∨ s = UcsStatus.endpointTimeout <;>
    simp [h, hc, countCloseInvocations]

theorem errCbSeq_none_close (statuses : List UcsStatus) (data : ErrorCallbackData)
    (h : data.closeCallback = none) :
    countCloseInvocations (errCbSeq data statuses).2 = 0 := by
  induction statuses generalizing data with
  | nil => simp [errCbSeq, countCloseInvocations]
  | cons s rest ih =>
      have h1 := errCb_none_close data s h
      simp only [errCbSeq, countCloseInvocations, List.countP_append]
      have h2 := ih (errCb data s).1 h1.1
      simp only [countCloseInvocations] at h1 h2
      omega

/-- C9: the close callback is invoked at most once. On an error-callback
invocation that finds the close callback set, the callback is invoked
exactly once and then cleared together with its argument, and any sequence
of further error-callback invocations performs zero invocations. -/
theorem closeCallback_invoked_at_most_once
    (data : ErrorCallbackData) (s : UcsStatus) (statuses : List UcsStatus)
    (h : data.closeCallback.isSome = true) :
    countCloseInvocations (errCb data s).2 = 1 ∧
    (errCb data s).1.closeCallback = none ∧
    (errCb data s).1.closeCallbackArg = none ∧
    countCloseInvocations (errCbSeq (errCb data s).1 statuses).2 = 0 := by
  obtain ⟨cb, hcb⟩ := Option.isSome_iff_exists.mp h
  have hfst : (errCb data s).1.closeCallback = none ∧
      (errCb data s).1.closeCallbackArg = none ∧
      countCloseInvocations (errCb data s).2 = 1 := by
    unfold errCb
    by_cases hc : s = UcsStatus.connectionReset ∨ s = UcsStatus.endpointTimeout <;>
      simp [hcb, hc, countCloseInvocations]
  exact ⟨hfst.2.2, hfst.1, hfst.2.1,
    errCbSeq_none_close statuses (errCb data s).1 hfst.1⟩

/-- Witness for the close-callback claim at concrete data. -/
theorem closeCallback_invoked_at_most_once_witness :
    countCloseInvocations (errCb dataCloseOnce UcsStatus.connectionReset).2 = 1 ∧
    (errCb dataCloseOnce UcsStatus.connectionReset).1.closeCallback = none ∧
    (errCb dataCloseOnce UcsStatus.connectionReset).1.closeCallbackArg = none ∧
    countCloseInvocations
      (errCbSeq (errCb dataCloseOnce UcsStatus.connectionReset).1
        [UcsStatus.connectionReset, UcsStatus.otherError 5]).2 = 0 :=
  closeCallback_invoked_at_most_once dataCloseOnce UcsStatus.connectionReset
    [UcsStatus.connectionReset, UcsStatus.otherError 5] (by decide)

/-- C8: for every endpoint constructed with endpoint error handling
disabled, `isAlive` returns true regardless of the recorded status, and
`raiseOnError` returns normally (never throws), even when the recorded
status is an error. -/
theorem disabled_error_handling_alive_no_raise (ep : Endpoint)
    (h : ep.endpointErrorHandling = false) :
    ep.isAlive = true ∧ ep.raiseOnError = Except.ok () := by
  unfold Endpoint.isAlive Endpoint.raiseOnError
  simp [h]

/-- Witness for the disabled-error-handling claim at concrete data. -/
theorem disabled_error_handling_alive_no_raise_witness :
    epNoErrHandling.isAlive = true ∧ epNoErrHandling.raiseOnError = Except.ok () :=
  disabled_error_handling_alive_no_raise epNoErrHandling rfl

/-- C10: every stream receive is submitted with the wait-all flag set (and
the flags field present in the attribute mask), while stream sends and tag
operations are submitted without any flags field, so only the stream
receive completion is held back until the full requested length has been
received (the completion semantics of the flag itself belong to the
external transport). -/
theorem stream_recv_waitall_flag (worker ep : Option Nat) (b l t r : Nat) :
    ((stream_request ep false b l r).flags = [UcpFlag.streamRecvWaitall]) ∧
    ((stream_request ep false b l r).opAttrMask.contains OpAttrField.fieldFlags = true) ∧
    ((stream_request ep true b l r).flags = []) ∧
    ((stream_request ep true b l r).opAttrMask.contains OpAttrField.fieldFlags = false) ∧
    ((tag_request worker ep true b l t r).flags = []) ∧
    ((tag_request worker ep true b l t r).opAttrMask.contains OpAttrField.fieldFlags = false) ∧
    ((tag_request worker ep false b l t r).flags = []) ∧
    ((tag_request worker ep false b l t r).opAttrMask.contains OpAttrField.fieldFlags = false) := by
  refine ⟨rfl, rfl, rfl, ?_, rfl, ?_, rfl, ?_⟩ <;> rfl

theorem discoverable_cancelAll (reg : List InflightEntry) (rid : Nat) :
    discoverable (cancelAll reg) rid = discoverable reg rid := by
  unfold discoverable cancelAll
  rw [List.any_map]
  congr 1
  funext e
  simp only [Function.comp_apply]
  split <;> rfl

theorem discoverable_removeOnTerminal (reg : List InflightEntry) (rid rid' : Nat) :
    discoverable (removeOnTerminal reg rid) rid' =
      (!(rid' == rid) && discoverable reg rid') := by
  induction reg with
  | nil => simp [removeOnTerminal, discoverable]
  | cons e rest ih =>
      simp only [removeOnTerminal, discoverable] at ih ⊢
      cases hb : (e.reqId == rid) <;> cases hc : (e.reqId == rid')
      · simp [List.filter_cons, hb, hc, ih]
      · have hb' : ¬e.reqId = rid := by simpa using hb
        have hc' : e.reqId = rid' := by simpa using hc
        have hr : (rid' == rid) = false := by
          simp only [beq_eq_false_iff_ne, ne_eq]
          omega
        simp [List.filter_cons, hb, hc, hr]
      · have hb' : e.reqId = rid := by simpa using hb
        simp [List.filter_cons, hb, hc, ih]
      · have hb' : e.reqId = rid := by simpa using hb
        have hc' : e.reqId = rid' := by simpa using hc
        have hr : (rid' == rid) = true := by
          simp only [beq_iff_eq]
          omega
        simp [List.filter_cons, hb, hc, hr, ih]

/-- C5: every request is inserted into its owning endpoint's inflight
registry at creation (`createRequest`) and is discoverable there: the
returned handle has exactly one strong owner, so the registry entry is
weak and extends no lifetime; the only registry mutation on the endpoint
error path (`cancelAll`) preserves discoverability, so the entry persists
from creation; and the (spec-modelled) removal at the terminal transition
removes exactly that request's entry and no other. -/
theorem createRequest_weak_and_discoverable
    (ep : Endpoint) (request : UcxxRequestT) (reg : List InflightEntry) (rid rid' : Nat) :
    (discoverable (ep.createRequest request).1.callbackData.inflightRequests
        request.id = true) ∧
    ((ep.createRequest request).2.strongCount = 1) ∧
    (discoverable (cancelAll reg) rid = discoverable reg rid) ∧
    (discoverable (removeOnTerminal reg rid) rid' =
      (!(rid' == rid) && discoverable reg rid')) := by
  refine ⟨?_, rfl, discoverable_cancelAll reg rid,
          discoverable_removeOnTerminal reg rid rid'⟩
  simp [Endpoint.createRequest, discoverable]

/-- C3 counterexample: `stream_msg` takes no account of the issuing
thread — the very same code path runs for an operation issued from the
progress-owning thread, and it registers a delayed notification entry
while making no transport call, leaving the request in `Delayed`, not
`Submitted`. An owning-thread issue therefore does not bypass the
`Delayed` state. -/
theorem stream_msg_owning_thread_still_delayed :
    ((stream_msg wOwn (some 1) true 10 5 0).1.delayedQueue.length = 1) ∧
    ((stream_msg wOwn (some 1) true 10 5 0).1.transportCalls = []) ∧
    (((stream_msg wOwn (some 1) true 10 5 0).2.state == RequestState.submitted) = false) ∧
    ((stream_msg wOwn (some 1) true 10 5 0).2.state = RequestState.delayed) := by
  decide

/-- C3 amended: every stream operation, from any thread, creates exactly
one delayed notification entry recording its parameters and performs no
transport call at issue time; the request enters `Delayed`; the transport
call happens only when the entry is consumed by
`populate_delayed_notification_stream_request`, with exactly the recorded
parameters. -/
theorem stream_msg_always_registers_delayed (w : Worker) (ep : Option Nat)
    (send : Bool) (buffer length freshId : Nat) :
    ((stream_msg w ep send buffer length freshId).1.delayedQueue =
      w.delayedQueue ++ [{ workerHandle := w.handle, ep := ep, send := send,
                           buffer := buffer, length := length, tag := none,
                           requestId := freshId }]) ∧
    ((stream_msg w ep send buffer length freshId).1.transportCalls =
      w.transportCalls) ∧
    ((stream_msg w ep send buffer length freshId).2.state = RequestState.delayed) ∧
    (∀ w' : Worker, ∀ d : DelayedNotificationRequest,
      (populate_delayed_notification_stream_request w' d).transportCalls =
        w'.transportCalls ++
          [stream_request d.ep d.send d.buffer d.length d.requestId]) :=
  ⟨rfl, rfl, rfl, fun _ _ => rfl⟩

/-- C1 counterexample: on an endpoint with error handling enabled whose
observed status is non-ok (a connection reset), `stream_send` does not
fail: it registers the request in the inflight registry and enqueues the
operation toward the transport (one delayed notification entry), so a
subsequent operation neither fails immediately nor is withheld from
submission. -/
theorem stream_send_on_errored_endpoint_enqueues :
    (epErrored.endpointErrorHandling = true) ∧
    ((epErrored.callbackData.status == UcsStatus.ok) = false) ∧
    ((epErrored.stream_send wErr 10 5 0).2.1.delayedQueue.length = 1) ∧
    (discoverable (epErrored.stream_send wErr 10 5 0).1.callbackData.inflightRequests
        0 = true) := by
  decide

/-- C1 amended: the endpoint operations do not consult the endpoint error
state — even with error handling enabled and a non-ok observed status,
each of stream_send, stream_recv, tag_send and tag_recv enqueues exactly
one delayed notification entry; fail-fast detection exists only in the
separate `raiseOnError`, which errors precisely in that situation. -/
theorem endpoint_ops_ignore_error_status (ep : Endpoint) (w : Worker)
    (b l t fid : Nat) (h1 : ep.endpointErrorHandling = true)
    (h2 : ep.callbackData.status ≠ UcsStatus.ok) :
    ((ep.stream_send w b l fid).2.1.delayedQueue.length = w.delayedQueue.length + 1) ∧
    ((ep.stream_recv w b l fid).2.1.delayedQueue.length = w.delayedQueue.length + 1) ∧
    ((ep.tag_send w b l t fid).2.1.delayedQueue.length = w.delayedQueue.length + 1) ∧
    ((ep.tag_recv w b l t fid).2.1.delayedQueue.length = w.delayedQueue.length + 1) ∧
    (∃ e : UcxxErr, ep.raiseOnError = Except.error e) := by
  refine ⟨?_, ?_, ?_, ?_, ?_⟩
  · simp [Endpoint.stream_send, stream_msg, Worker.registerDelayedNotificationRequest]
  · simp [Endpoint.stream_recv, stream_msg, Worker.registerDelayedNotificationRequest]
  · simp [Endpoint.tag_send, tag_msg, Worker.registerDelayedNotificationRequest]
  · simp [Endpoint.tag_recv, tag_msg, Worker.registerDelayedNotificationRequest]
  · unfold Endpoint.raiseOnError
    by_cases hr : ep.callbackData.status = UcsStatus.connectionReset <;>
      simp [h1, h2, hr]

/-- Witness for the amended no-status-check claim at concrete data. -/
theorem endpoint_ops_ignore_error_status_witness :
    ((epErrored.stream_send wErr 10 5 0).2.1.delayedQueue.length =
      wErr.delayedQueue.length + 1) ∧
    ((epErrored.stream_recv wErr 10 5 0).2.1.delayedQueue.length =
      wErr.delayedQueue.length + 1) ∧
    ((epErrored.tag_send wErr 10 5 7 0).2.1.delayedQueue.length =
      wErr.delayedQueue.length + 1) ∧
    ((epErrored.tag_recv wErr 10 5 7 0).2.1.delayedQueue.length =
      wErr.delayedQueue.length + 1) ∧
    (∃ e : UcxxErr, epErrored.raiseOnError = Except.error e) :=
  endpoint_ops_ignore_error_status epErrored wErr 10 5 7 0 rfl (by decide)

/-- C6: creating an endpoint on an invalid worker — through the private
constructor, `createEndpointFromHostname` or
`createEndpointFromWorkerAddress` — fails immediately with the
"Worker not initialized" error and performs no transport action at all
(in particular nothing is queued); likewise an invalid address fails with
"Address not initialized" before any transport interaction. -/
theorem create_endpoint_invalid_worker_fails_fast
    (worker : Option Worker) (wv : Worker) (address : Option AddressObj)
    (resolvedHost : Option Nat) (port : Nat) (eh : Bool) (neh : Nat)
    (hw : workerInvalid worker = true)
    (ha : addressInvalid address = true)
    (hv : workerInvalid (some wv) = false) :
    (endpointCtor worker eh neh =
      (Except.error (UcxxErr.ucxxError "Worker not initialized"), [])) ∧
    (createEndpointFromHostname worker resolvedHost port eh neh =
      (Except.error (UcxxErr.ucxxError "Worker not initialized"), [])) ∧
    (createEndpointFromWorkerAddress worker address eh neh =
      (Except.error (UcxxErr.ucxxError "Worker not initialized"), [])) ∧
    (createEndpointFromWorkerAddress (some wv) address eh neh =
      (Except.error (UcxxErr.ucxxError "Address not initialized"), [])) := by
  have hcase : worker = none ∨ ∃ w, worker = some w ∧ w.handle = none := by
    match worker with
    | none => exact Or.inl rfl
    | some w =>
        refine Or.inr ⟨w, rfl, Option.isNone_iff_eq_none.mp ?_⟩
        simpa [workerInvalid] using hw
  obtain ⟨wh, hwh⟩ : ∃ x, wv.handle = some x := by
    match hvh : wv.handle with
    | none => simp [workerInvalid, hvh] at hv
    | some x => exact ⟨x, rfl⟩
  have haddr :
      createEndpointFromWorkerAddress (some wv) address eh neh =
        (Except.error (UcxxErr.ucxxError "Address not initialized"), []) := by
    match address with
    | none => simp [createEndpointFromWorkerAddress, hwh]
    | some a =>
        have hba : (a.addrHandle.isNone || a.length == 0) = true := by
          simpa [addressInvalid] using ha
        simp [createEndpointFromWorkerAddress, hwh, hba]
  rcases hcase with hn | ⟨w, hwsome, hwnone⟩
  · subst hn
    exact ⟨rfl, rfl, rfl, haddr⟩
  · subst hwsome
    refine ⟨?_, ?_, ?_, haddr⟩ <;>
      simp [endpointCtor, createEndpointFromHostname,
            createEndpointFromWorkerAddress, hwnone]

/-- Witness for the invalid-worker fail-fast claim at concrete data. -/
theorem create_endpoint_invalid_worker_fails_fast_witness :
    (endpointCtor none true 9 =
      (Except.error (UcxxErr.ucxxError "Worker not initialized"), [])) ∧
    (createEndpointFromHostname none (some 1) 7 true 9 =
      (Except.error (UcxxErr.ucxxError "Worker not initialized"), [])) ∧
    (createEndpointFromWorkerAddress none none true 9 =
      (Except.error (UcxxErr.ucxxError "Worker not initialized"), [])) ∧
    (createEndpointFromWorkerAddress (some wValid) none true 9 =
      (Except.error (UcxxErr.ucxxError "Address not initialized"), [])) :=
  create_endpoint_invalid_worker_fails_fast none wValid none (some 1) 7 true 9
    rfl rfl (by decide)

theorem countNonTerminal_cancelFirst (pending : List InflightEntry) :
    countNonTerminal (cancelFirstNonTerminal pending) = countNonTerminal pending - 1 := by
  induction pending with
  | nil => rfl
  | cons e rest ih =>
      cases h : e.state.isTerminal
      case false =>
        have hcons : cancelFirstNonTerminal (e :: rest) =
            { e with state := RequestState.cancelled } :: rest := by
          simp [cancelFirstNonTerminal, h]
        rw [hcons]
        simp only [countNonTerminal, List.countP_cons]
        have h1 : (!({ e with state := RequestState.cancelled } :
            InflightEntry).state.isTerminal) = false := rfl
        have h2 : (!e.state.isTerminal) = true := by rw [h]; rfl
        rw [h1, h2]
        simp
      case true =>
        have hcons : cancelFirstNonTerminal (e :: rest) =
            e :: cancelFirstNonTerminal rest := by
          simp [cancelFirstNonTerminal, h]
        rw [hcons]
        simp only [countNonTerminal, List.countP_cons] at ih ⊢
        have h2 : (!e.state.isTerminal) = false := by rw [h]; rfl
        rw [h2]
        simp only [Bool.false_eq_true, if_false]
        omega

theorem driveCloseAux_spec (n : Nat) (pending : List InflightEntry)
    (h : countNonTerminal pending = n) :
    (driveCloseAux n pending).1 = List.replicate n DtorAction.workerProgress ∧
    countNonTerminal (driveCloseAux n pending).2 = 0 := by
  induction n generalizing pending with
  | zero => exact ⟨rfl, by simpa [driveCloseAux] using h⟩
  | succ n ih =>
      have hc : countNonTerminal (cancelFirstNonTerminal pending) = n := by
        rw [countNonTerminal_cancelFirst, h]
        omega
      have hr := ih (cancelFirstNonTerminal pending) hc
      exact ⟨by simp [driveCloseAux, List.replicate_succ, hr.1],
             by simpa [driveCloseAux] using hr.2⟩

theorem driveClose_spec (pending : List InflightEntry) :
    (driveClose pending).1 =
      List.replicate (countNonTerminal pending) DtorAction.workerProgress ∧
    countNonTerminal (driveClose pending).2 = 0 :=
  driveCloseAux_spec (countNonTerminal pending) pending rfl

/-- C4: destroying an endpoint with a live handle issues a single
force-mode close and, when the transport reports the close as in
progress, drives worker progress — one step per outstanding non-terminal
request — freeing the close request only once every request of the
endpoint has reached a terminal state or been force-cancelled (the final
pending set has no non-terminal entry, and the close status reads
`UCS_OK` there); an immediately failed close is logged rather than
crashed on, and an immediately successful close needs no progress at
all. -/
theorem endpointDtor_releases_after_drain (ep : Endpoint) (s : UcsStatus)
    (h : ep.handle.isSome = true) (hs : s ≠ UcsStatus.ok) :
    (endpointDtor ep none =
      DtorAction.closeIssued CloseMode.force ::
        (List.replicate (countNonTerminal ep.callbackData.inflightRequests)
            DtorAction.workerProgress ++ [DtorAction.closeRequestFreed])) ∧
    (countNonTerminal (driveClose ep.callbackData.inflightRequests).2 = 0) ∧
    (ucpRequestCheckStatus (driveClose ep.callbackData.inflightRequests).2 =
      UcsStatus.ok) ∧
    (endpointDtor ep (some UcsStatus.ok) = [DtorAction.closeIssued CloseMode.force]) ∧
    (endpointDtor ep (some s) =
      [DtorAction.closeIssued CloseMode.force, DtorAction.logCloseError s]) := by
  obtain ⟨eh, heh⟩ : ∃ x, ep.handle = some x := by
    match hx : ep.handle with
    | none => simp [hx] at h
    | some x => exact ⟨x, rfl⟩
  have hd := driveClose_spec ep.callbackData.inflightRequests
  refine ⟨?_, hd.2, ?_, ?_, ?_⟩
  · simp [endpointDtor, heh, hd.1]
  · simp [ucpRequestCheckStatus, hd.2]
  · simp [endpointDtor, heh]
  · simp [endpointDtor, heh, hs]

/-- Witness for the destructor claim at concrete data. -/
theorem endpointDtor_releases_after_drain_witness :
    (endpointDtor epWithInflight none =
      DtorAction.closeIssued CloseMode.force ::
        (List.replicate (countNonTerminal epWithInflight.callbackData.inflightRequests)
            DtorAction.workerProgress ++ [DtorAction.closeRequestFreed])) ∧
    (countNonTerminal (driveClose epWithInflight.callbackData.inflightRequests).2 = 0) ∧
    (ucpRequestCheckStatus (driveClose epWithInflight.callbackData.inflightRequests).2 =
      UcsStatus.ok) ∧
    (endpointDtor epWithInflight (some UcsStatus.ok) =
      [DtorAction.closeIssued CloseMode.force]) ∧
    (endpointDtor epWithInflight (some (UcsStatus.otherError 3)) =
      [DtorAction.closeIssued CloseMode.force,
       DtorAction.logCloseError (UcsStatus.otherError 3)]) :=
  endpointDtor_releases_after_drain epWithInflight (UcsStatus.otherError 3)
    rfl (by decide)

theorem errCb_sanity :
    (errCb { status := UcsStatus.ok,
             inflightRequests := [{ reqId := 0, alive := true, state := RequestState.submitted }],
             closeCallback := some 7, closeCallbackArg := some 9 }
           UcsStatus.connectionReset).2 =
      [EpAction.scheduleRequestCancel,
       EpAction.invokeCloseCallback (some 9),
       EpAction.log LogLevel.debug UcsStatus.connectionReset] := by
  decide

end Ucxx
